import Mathlib

/-!
Verification of `repro.py`: a script that builds a document with 65,535
generated fields plus an `id` field, POSTs it as a one-element batch to a
fixed Meilisearch endpoint, prints a confirmation line, then does the same
for a second two-field document.  We embed the JSON values the script
builds, the Python-dict insertion it uses, the two requests it issues and
the sequential send/print control flow (with the network transport as an
oracle that either returns an HTTP response or faults).
-/

namespace Repro

/-- JSON values, as produced by the script (strings, numbers, arrays,
objects with ordered fields — Python dicts preserve insertion order). -/
inductive Json where
| str : String → Json
| num : Int → Json
| arr : List Json → Json
| obj : List (String × Json) → Json

/-- A document is an ordered association list of field name to JSON value,
mirroring a Python dict. -/
abbrev Record := List (String × Json)

/-- Python dict assignment `d[k] = v`: if the key is present its value is
replaced in place (position kept), otherwise the pair is appended. -/
def dictInsert (d : Record) (k : String) (v : Json) : Record :=
  if d.any (fun e => e.1 == k) then d.map (fun e => if e.1 == k then (k, v) else e)
  else d ++ [(k, v)]

/-- The character for a single decimal digit. -/
def digitChar (d : Nat) : Char := Char.ofNat (48 + d)

/-- Decimal digits of a natural number, most significant first; empty for 0. -/
def decimalDigits (n : Nat) : List Char :=
  if h : n = 0 then []
  else decimalDigits (n / 10) ++ [digitChar (n % 10)]
decreasing_by exact Nat.div_lt_self (Nat.pos_of_ne_zero h) (by decide)

/-- Decimal rendering of a natural number, as Python's f-string `f"{n}"`. -/
def decimal (n : Nat) : String :=
  String.mk (if n = 0 then [Char.ofNat 48] else decimalDigits n)

/-- Reads a digit list back into a number (left inverse of `decimalDigits`). -/
def decodeDigits (l : List Char) : Nat :=
  l.foldl (fun acc c => acc * 10 + (c.toNat - 48)) 0

lemma decodeDigits_append_digit (l : List Char) (c : Char) :
    decodeDigits (l ++ [c]) = decodeDigits l * 10 + (c.toNat - 48) := by
  simp [decodeDigits, List.foldl_append]

lemma digitChar_toNat (d : Nat) (h : d < 10) : (digitChar d).toNat = 48 + d := by
  interval_cases d <;> decide

lemma decodeDigits_decimalDigits (n : Nat) : decodeDigits (decimalDigits n) = n := by
  induction n using Nat.strong_induction_on with
  | _ n ih =>
    by_cases h : n = 0
    · subst h; rw [decimalDigits]; simp [decodeDigits]
    · rw [decimalDigits, dif_neg h, decodeDigits_append_digit,
        ih (n / 10) (Nat.div_lt_self (Nat.pos_of_ne_zero h) (by decide)),
        digitChar_toNat (n % 10) (Nat.mod_lt n (by decide))]
      omega

lemma decodeDigits_decimal_data (n : Nat) : decodeDigits (decimal n).data = n := by
  by_cases h : n = 0
  · subst h; decide
  · show decodeDigits (if n = 0 then [Char.ofNat 48] else decimalDigits n) = n
    rw [if_neg h, decodeDigits_decimalDigits]

lemma decimal_data_inj {m n : Nat} (h : (decimal m).data = (decimal n).data) : m = n := by
  rw [← decodeDigits_decimal_data m, ← decodeDigits_decimal_data n, h]

lemma fieldName_inj {m n : Nat} (h : "field_" ++ decimal m = "field_" ++ decimal n) :
    m = n := by
  have hd : ("field_" ++ decimal m).data = ("field_" ++ decimal n).data := by rw [h]
  simp only [String.data_append] at hd
  exact decimal_data_inj (List.append_cancel_left hd)

lemma fieldName_ne_id (n : Nat) : "field_" ++ decimal n ≠ "id" := by
  intro h
  have := congrArg String.length h
  rw [String.length_append] at this
  have h6 : ("field_" : String).length = 6 := by decide
  have h2 : ("id" : String).length = 2 := by decide
  omega

/-- The entry the loop body `doc1[f"field_{i}"] = f"value_{i}"` adds for index `i`. -/
def fieldEntry (i : Nat) : String × Json :=
  ("field_" ++ decimal i, Json.str ("value_" ++ decimal i))

/-- One iteration of the loop over `range(65535)`. -/
def addField (d : Record) (i : Nat) : Record :=
  dictInsert d ("field_" ++ decimal i) (Json.str ("value_" ++ decimal i))

/-- The first document: `doc1 = {"id": 1}` then `for i in range(65535): doc1[f"field_{i}"] = f"value_{i}"`. -/
def doc1 : Record :=
  (List.range 65535).foldl addField [("id", Json.num 1)]

/-- The second document: `doc2 = {"id": 2, "new_unique_field": "new_value"}`. -/
def doc2 : Record :=
  [("id", Json.num 2), ("new_unique_field", Json.str "new_value")]

/-- The constant `HOST = "http://localhost:7700"`. -/
def HOST : String := "http://localhost:7700"

/-- The constant `HEADERS = {"X-Meili-API-Key": "masterKey"}`. -/
def HEADERS : List (String × String) :=
  [("X-Meili-API-Key", "masterKey")]

/-- An outbound HTTP request as issued by `requests.post(url, headers=..., json=...)`:
the body is the JSON value serialized from the `json=` argument. -/
structure Request where
  method : String
  url : String
  headers : List (String × String)
  body : Json

/-- The first request: `requests.post(f"{HOST}/indexes/test/documents", headers=HEADERS, json=[doc1])`. -/
def req1 : Request :=
  { method := "POST", url := HOST ++ "/indexes/test/documents",
    headers := HEADERS, body := Json.arr [Json.obj doc1] }

/-- The second request: `requests.post(f"{HOST}/indexes/test/documents", headers=HEADERS, json=[doc2])`. -/
def req2 : Request :=
  { method := "POST", url := HOST ++ "/indexes/test/documents",
    headers := HEADERS, body := Json.arr [Json.obj doc2] }

/-- What the transport does for one `requests.post` call: either the server
answers with some HTTP status and body (any status — the script never looks
at it), or the transport itself faults (connection refused, timeout, DNS
failure), which in Python raises an exception. -/
inductive Outcome where
| response : Nat → String → Outcome
| fault : Outcome

/-- Observable result of a run of `create_documents()`: the outbound requests
issued in order, the lines printed to standard output in order, and whether
the call ran to completion (`false` means an unhandled transport fault
aborted it — there is no try/except anywhere in the script). -/
structure RunResult where
  requests : List Request
  output : List String
  completed : Bool

/-- First confirmation line printed. -/
def line1 : String := "Add one document with 65,535 unique fields"

/-- Second confirmation line printed. -/
def line2 : String := "Add a second document with a new unique field"

/-- Run of `create_documents()` against a transport oracle `t`, where `t n` is
the outcome of the `n`-th `requests.post` call.  The script posts `[doc1]`,
prints `line1`, posts `[doc2]`, prints `line2`; a transport fault is an
unhandled exception, so it aborts the run at that point (nothing later is
printed or sent); a response of any status is ignored and execution
continues. -/
def create_documents (t : Nat → Outcome) : RunResult :=
  match t 0 with
  | Outcome.fault => { requests := [req1], output := [], completed := false }
  | Outcome.response _ _ =>
    match t 1 with
    | Outcome.fault =>
      { requests := [req1, req2], output := [line1], completed := false }
    | Outcome.response _ _ =>
      { requests := [req1, req2], output := [line1, line2], completed := true }

/-- A transport that never faults: every post receives some HTTP response. -/
def noFault (t : Nat → Outcome) : Prop := ∀ n, t n ≠ Outcome.fault

/-- Mock endpoint answering HTTP 202 to every call. -/
def mockOk : Nat → Outcome := fun _ => Outcome.response 202 ""

/-- Mock endpoint answering HTTP 500 to the first call and 202 to the second. -/
def mock500then202 : Nat → Outcome := fun n =>
  match n with
  | 0 => Outcome.response 500 ""
  | _ => Outcome.response 202 ""

/-- Transport that faults on the first call (e.g. connection refused). -/
def mockFault : Nat → Outcome := fun _ => Outcome.fault

/-- Transport that answers the first call with 202 and faults on the second. -/
def mockFaultSecond : Nat → Outcome := fun n =>
  match n with
  | 0 => Outcome.response 202 ""
  | _ => Outcome.fault

lemma dictInsert_fresh {d : Record} {k : String} (v : Json) (h : ∀ e ∈ d, e.1 ≠ k) :
    dictInsert d k v = d ++ [(k, v)] := by
  rw [dictInsert, if_neg]
  simp only [List.any_eq_true, beq_iff_eq, not_exists, not_and]
  exact h

lemma foldl_addField (n : Nat) :
    (List.range n).foldl addField [("id", Json.num 1)] =
      ("id", Json.num 1) :: (List.range n).map fieldEntry := by
  induction n with
  | zero => rfl
  | succ n ih =>
    rw [List.range_succ, List.foldl_append, ih, List.map_append]
    show addField (("id", Json.num 1) :: (List.range n).map fieldEntry) n = _
    rw [addField, dictInsert_fresh]
    · simp [fieldEntry]
    · intro e he
      rcases List.mem_cons.1 he with h1 | h2
      · rw [h1]; exact fun hc => fieldName_ne_id n hc.symm
      · rcases List.mem_map.1 h2 with ⟨i, hi, hie⟩
        rw [← hie]
        simp only [fieldEntry]
        intro hc
        have hin : i = n := fieldName_inj hc
        have hlt : i < n := List.mem_range.1 hi
        omega

/-- The first document, fully evaluated: the `id` entry followed by the
65,535 generated entries in index order (Python dicts keep insertion order,
and no key is ever inserted twice). -/
lemma doc1_eq :
    doc1 = ("id", Json.num 1) :: (List.range 65535).map fieldEntry :=
  foldl_addField 65535

lemma noFault_mockOk : noFault mockOk := fun _ h => nomatch h

lemma noFault_mock500then202 : noFault mock500then202 := by
  intro n h
  cases n <;> exact Outcome.noConfusion h

/-- C1: the first constructed Record contains exactly 65,536 entries — the
`id` entry with value 1, and for every `i < 65535` the entry whose key is
`"field_"` followed by the decimal of `i` and whose value is `"value_"`
followed by the decimal of `i` — and nothing else. -/
theorem claim_c1 :
    doc1.length = 65536 ∧
    ∀ kv : String × Json, kv ∈ doc1 ↔
      (kv = ("id", Json.num 1) ∨
        ∃ i, i < 65535 ∧ kv = ("field_" ++ decimal i, Json.str ("value_" ++ decimal i))) := by
  constructor
  · rw [doc1_eq, List.length_cons, List.length_map, List.length_range]
  · intro kv
    rw [doc1_eq]
    simp only [List.mem_cons, List.mem_map, List.mem_range, fieldEntry]
    constructor
    · rintro (h | ⟨i, hi, he⟩)
      · exact Or.inl h
      · exact Or.inr ⟨i, hi, he.symm⟩
    · rintro (h | ⟨i, hi, he⟩)
      · exact Or.inl h
      · exact Or.inr ⟨i, hi, he.symm⟩

/-- C2: the second constructed Record contains exactly two entries,
`id` = 2 and `new_unique_field` = "new_value", and nothing else. -/
theorem claim_c2 :
    doc2.length = 2 ∧
    ∀ kv : String × Json, kv ∈ doc2 ↔
      (kv = ("id", Json.num 2) ∨ kv = ("new_unique_field", Json.str "new_value")) := by
  refine ⟨rfl, ?_⟩
  intro kv
  simp [doc2]

/-- C3: both outbound requests are HTTP POSTs to the fixed endpoint
`http://localhost:7700/indexes/test/documents` with the fixed header
`X-Meili-API-Key: masterKey`, their bodies are one-element JSON arrays
holding the Record of that send, and every request any run issues is one
of these two. -/
theorem claim_c3 :
    req1.method = "POST" ∧ req2.method = "POST" ∧
    req1.url = "http://localhost:7700/indexes/test/documents" ∧
    req2.url = "http://localhost:7700/indexes/test/documents" ∧
    req1.headers = [("X-Meili-API-Key", "masterKey")] ∧
    req2.headers = [("X-Meili-API-Key", "masterKey")] ∧
    req1.body = Json.arr [Json.obj doc1] ∧
    req2.body = Json.arr [Json.obj doc2] ∧
    ∀ t, (create_documents t).requests = [req1] ∨
      (create_documents t).requests = [req1, req2] := by
  refine ⟨rfl, rfl, rfl, rfl, rfl, rfl, rfl, rfl, ?_⟩
  intro t
  unfold create_documents
  cases t 0 with
  | fault => exact Or.inl rfl
  | response s b =>
    cases t 1 with
    | fault => exact Or.inr rfl
    | response s b => exact Or.inr rfl

lemma output_noFault {t : Nat → Outcome} (h : noFault t) :
    (create_documents t).output = [line1, line2] := by
  unfold create_documents
  cases h0 : t 0 with
  | fault => exact absurd h0 (h 0)
  | response s b =>
    cases h1 : t 1 with
    | fault => exact absurd h1 (h 1)
    | response s b => rfl

lemma requests_noFault {t : Nat → Outcome} (h : noFault t) :
    (create_documents t).requests = [req1, req2] := by
  unfold create_documents
  cases h0 : t 0 with
  | fault => exact absurd h0 (h 0)
  | response s b =>
    cases h1 : t 1 with
    | fault => exact absurd h1 (h 1)
    | response s b => rfl

/-- C4: printing is independent of the responses — any two runs whose
transports always respond (whatever the statuses and bodies) produce the
same standard output, namely the two confirmation lines. -/
theorem claim_c4 (t₁ t₂ : Nat → Outcome) (h₁ : noFault t₁) (h₂ : noFault t₂) :
    (create_documents t₁).output = [line1, line2] ∧
    (create_documents t₁).output = (create_documents t₂).output :=
  ⟨output_noFault h₁, (output_noFault h₁).trans (output_noFault h₂).symm⟩

theorem claim_c4_witness :
    noFault mockOk ∧ noFault mock500then202 ∧
    ((create_documents mockOk).output = [line1, line2] ∧
      (create_documents mockOk).output = (create_documents mock500then202).output) :=
  ⟨noFault_mockOk, noFault_mock500then202,
    claim_c4 mockOk mock500then202 noFault_mockOk noFault_mock500then202⟩

/-- C5: when every post receives a response, the run prints exactly the two
confirmation lines in order and issues exactly the two requests in order
(first the 65,536-entry Record's batch, then the 2-entry one's). -/
theorem claim_c5 (t : Nat → Outcome) (h : noFault t) :
    (create_documents t).output = [line1, line2] ∧
    (create_documents t).requests = [req1, req2] :=
  ⟨output_noFault h, requests_noFault h⟩

theorem claim_c5_witness :
    noFault mockOk ∧
    ((create_documents mockOk).output = [line1, line2] ∧
      (create_documents mockOk).requests = [req1, req2]) :=
  ⟨noFault_mockOk, claim_c5 mockOk noFault_mockOk⟩

/-- C6: a transport fault on either call aborts the run unhandled (no retry,
no catch: the run does not complete), while a request that receives any HTTP
response — whatever its status and body, e.g. 400 — leaves the run
indistinguishable from the all-202 run. -/
theorem claim_c6 :
    (∀ t, t 0 = Outcome.fault →
      (create_documents t).completed = false ∧
      (create_documents t).output = [] ∧
      (create_documents t).requests = [req1]) ∧
    (∀ t s b, t 0 = Outcome.response s b → t 1 = Outcome.fault →
      (create_documents t).completed = false ∧
      (create_documents t).output = [line1]) ∧
    (∀ s₁ b₁ s₂ b₂, create_documents (fun n =>
        match n with
        | 0 => Outcome.response s₁ b₁
        | _ => Outcome.response s₂ b₂) = create_documents mockOk) := by
  refine ⟨?_, ?_, ?_⟩
  · intro t h
    unfold create_documents
    rw [h]
    exact ⟨rfl, rfl, rfl⟩
  · intro t s b h0 h1
    unfold create_documents
    rw [h0, h1]
    exact ⟨rfl, rfl⟩
  · intro s₁ b₁ s₂ b₂
    rfl

theorem claim_c6_witness :
    (mockFault 0 = Outcome.fault ∧
      (create_documents mockFault).completed = false ∧
      (create_documents mockFault).output = [] ∧
      (create_documents mockFault).requests = [req1]) ∧
    (mockFaultSecond 0 = Outcome.response 202 "" ∧ mockFaultSecond 1 = Outcome.fault ∧
      (create_documents mockFaultSecond).completed = false ∧
      (create_documents mockFaultSecond).output = [line1]) :=
  ⟨⟨rfl, claim_c6.1 mockFault rfl⟩,
    ⟨rfl, rfl, claim_c6.2.1 mockFaultSecond 202 "" rfl rfl⟩⟩

/-- C7: keys are unique in every constructed Record: `"id"` differs from
every generated field name, distinct indices give distinct field names, and
both documents' key lists are duplicate-free (so no construction step ever
overwrote an entry). -/
theorem claim_c7 :
    (∀ i, ("field_" ++ decimal i) ≠ "id") ∧
    (∀ i j : Nat, i ≠ j → ("field_" ++ decimal i) ≠ ("field_" ++ decimal j)) ∧
    (doc1.map Prod.fst).Nodup ∧ (doc2.map Prod.fst).Nodup := by
  refine ⟨fieldName_ne_id, ?_, ?_, ?_⟩
  · intro i j hij hc
    exact hij (fieldName_inj hc)
  · rw [doc1_eq]
    simp only [List.map_cons, List.map_map]
    refine List.Nodup.cons ?_ ?_
    · intro hmem
      rcases List.mem_map.1 hmem with ⟨i, _, hfi⟩
      exact fieldName_ne_id i hfi
    · exact (List.nodup_range 65535).map (fun a b h => fieldName_inj h)
  · decide

theorem claim_c7_witness :
    (0 : Nat) ≠ 1 ∧ ("field_" ++ decimal 0) ≠ ("field_" ++ decimal 1) :=
  ⟨by decide, claim_c7.2.1 0 1 (by decide)⟩

/-- C8: both Records carry the reserved `id` key with a numeric value, and
every other entry's value is a string. -/
theorem claim_c8 :
    (("id", Json.num 1) ∈ doc1 ∧ ("id", Json.num 2) ∈ doc2) ∧
    (∀ kv : String × Json, kv ∈ doc1 → kv.1 ≠ "id" → ∃ s, kv.2 = Json.str s) ∧
    (∀ kv : String × Json, kv ∈ doc1 → kv.1 = "id" → kv.2 = Json.num 1) ∧
    (∀ kv : String × Json, kv ∈ doc2 → kv.1 ≠ "id" → ∃ s, kv.2 = Json.str s) ∧
    (∀ kv : String × Json, kv ∈ doc2 → kv.1 = "id" → kv.2 = Json.num 2) := by
  refine ⟨⟨?_, ?_⟩, ?_, ?_, ?_, ?_⟩
  · rw [doc1_eq]
    exact List.mem_cons_self _ _
  · exact List.mem_cons_self _ _
  · intro kv hmem hne
    rw [doc1_eq] at hmem
    rcases List.mem_cons.1 hmem with h | h
    · exact absurd (congrArg Prod.fst h) hne
    · rcases List.mem_map.1 h with ⟨i, _, hie⟩
      exact ⟨"value_" ++ decimal i, (congrArg Prod.snd hie).symm⟩
  · intro kv hmem hid
    rw [doc1_eq] at hmem
    rcases List.mem_cons.1 hmem with h | h
    · exact congrArg Prod.snd h
    · rcases List.mem_map.1 h with ⟨i, _, hie⟩
      have : ("field_" ++ decimal i) = "id" := by
        rw [← hid, ← hie]
        rfl
      exact absurd this (fieldName_ne_id i)
  · intro kv hmem hne
    rcases List.mem_cons.1 hmem with h | h
    · exact absurd (congrArg Prod.fst h) hne
    · rcases List.mem_cons.1 h with h2 | h2
      · exact ⟨"new_value", congrArg Prod.snd h2⟩
      · exact absurd h2 (List.not_mem_nil kv)
  · intro kv hmem hid
    rcases List.mem_cons.1 hmem with h | h
    · exact congrArg Prod.snd h
    · rcases List.mem_cons.1 h with h2 | h2
      · rw [h2] at hid
        exact absurd hid (by decide)
      · exact absurd h2 (List.not_mem_nil kv)

theorem claim_c8_witness :
    ("id", Json.num 1) ∈ doc1 ∧
    (("id", Json.num 1) : String × Json).1 = "id" ∧
    (("id", Json.num 1) : String × Json).2 = Json.num 1 :=
  ⟨claim_c8.1.1, rfl, claim_c8.2.2.1 ("id", Json.num 1) claim_c8.1.1 rfl⟩

/-- C9: the first Record's entries stand in fixed insertion order — the `id`
entry first, then `field_0, field_1, …, field_65534` in strictly increasing
index order — and the first request's body carries the Record in that same
order. -/
theorem claim_c9 :
    doc1 = ("id", Json.num 1) :: (List.range 65535).map fieldEntry ∧
    req1.body =
      Json.arr [Json.obj (("id", Json.num 1) :: (List.range 65535).map fieldEntry)] := by
  refine ⟨doc1_eq, ?_⟩
  show Json.arr [Json.obj doc1] = _
  rw [doc1_eq]

/-- C10: a fault on the first post aborts before any output, with only one
request ever issued; a fault on the second post alone leaves exactly the
first line printed and exactly two requests issued. -/
theorem claim_c10 :
    (∀ t, t 0 = Outcome.fault →
      (create_documents t).output = [] ∧ (create_documents t).requests = [req1]) ∧
    (∀ t s b, t 0 = Outcome.response s b → t 1 = Outcome.fault →
      (create_documents t).output = [line1] ∧
      (create_documents t).requests = [req1, req2]) := by
  constructor
  · intro t h
    unfold create_documents
    rw [h]
    exact ⟨rfl, rfl⟩
  · intro t s b h0 h1
    unfold create_documents
    rw [h0, h1]
    exact ⟨rfl, rfl⟩

theorem claim_c10_witness :
    (mockFault 0 = Outcome.fault ∧
      (create_documents mockFault).output = [] ∧
      (create_documents mockFault).requests = [req1]) ∧
    (mockFaultSecond 0 = Outcome.response 202 "" ∧ mockFaultSecond 1 = Outcome.fault ∧
      (create_documents mockFaultSecond).output = [line1] ∧
      (create_documents mockFaultSecond).requests = [req1, req2]) :=
  ⟨⟨rfl, claim_c10.1 mockFault rfl⟩,
    ⟨rfl, rfl, claim_c10.2 mockFaultSecond 202 "" rfl rfl⟩⟩

end Repro
